import Mathlib

/-!
Shallow embedding of `src/main.cpp` (Slint-ImGui offscreen render-to-texture
bridge) and proofs of the specification's claims about it.

The embedding has three layers, each translated from the source:
* a GL ambient-state machine (`GLState`) with the scoped-binding guards
  (`DEFINE_SCOPED_BINDING`, lines 20-40), the `SceneTexture` constructor
  (lines 49-87) and `with_active_fbo` (lines 96-101);
* the change-detection cache `DemoRenderer::State` / `needsUpdate`
  (lines 238-252, 270-287) and `buildScene` (lines 254-267);
* the lifecycle controller `ImGuiRendererBase` (lines 104-230), modelled as
  a state machine over an explicit `Controller` record plus a trace of
  observable events (GPU draws, surface creations/destructions, image
  publications, redraw requests).

C++ `float` fields are compared only for exact equality and never computed
with, so they are embedded as `ℚ`; C++ `int` becomes `Int`; GL object names
become `Nat`.  A callback that may throw is embedded as a function returning
an extra `Bool` (`true` = it raised); the RAII guards restore state on both
exits, exactly as C++ destructors do.
-/

namespace SlintImGui

/-! ## GL ambient state (the part of driver state the claims talk about) -/

/-- Per-texture-object state touched by the `SceneTexture` constructor:
`glTexParameteri` filters/wrap modes and the storage allocated by
`glTexImage2D`. -/
structure TexObject where
  minFilter : Nat
  magFilter : Nat
  wrapS : Nat
  wrapT : Nat
  storage : Option (Int × Int)
  deriving DecidableEq

/-- A texture object as freshly produced by `glGenTextures` (no storage). -/
def TexObject.fresh : TexObject :=
  { minFilter := 0, magFilter := 0, wrapS := 0, wrapT := 0, storage := none }

/-- GL enum values used by the source (numeric values from `gl3.h`). -/
def GL_LINEAR : Nat := 0x2601

def GL_CLAMP_TO_EDGE : Nat := 0x812F

/-- The ambient GL state the bridge touches: the 2D texture binding, the
draw-framebuffer binding, the four pixel-unpack parameters, and the object
tables for textures (keyed by name) and framebuffers (name ↦ color-0
attachment). -/
structure GLState where
  textureBinding2D : Nat
  drawFramebufferBinding : Nat
  unpackAlignment : Int
  unpackRowLength : Int
  unpackSkipPixels : Int
  unpackSkipRows : Int
  textures : List (Nat × TexObject)
  framebuffers : List (Nat × Option Nat)
  deriving DecidableEq

/-- `glTexParameteri`/`glTexImage2D` target resolution: apply `f` to the
texture object currently bound to `GL_TEXTURE_2D`. -/
def GLState.onBoundTexture (s : GLState) (f : TexObject → TexObject) : GLState :=
  { s with textures := s.textures.map fun p =>
      if p.1 = s.textureBinding2D then (p.1, f p.2) else p }

/-- `glTexImage2D(GL_TEXTURE_2D, 0, GL_RGBA, width, height, 0, GL_RGBA,
GL_UNSIGNED_BYTE, nullptr)`: allocate width×height storage for the bound
texture. -/
def texImage2D (width height : Int) (s : GLState) : GLState :=
  s.onBoundTexture fun t => { t with storage := some (width, height) }

/-- `glFramebufferTexture2D(GL_FRAMEBUFFER, GL_COLOR_ATTACHMENT0,
GL_TEXTURE_2D, texture, 0)`: attach `texName` as color 0 of the
currently-bound framebuffer. -/
def framebufferTexture2D (texName : Nat) (s : GLState) : GLState :=
  { s with framebuffers := s.framebuffers.map fun p =>
      if p.1 = s.drawFramebufferBinding then (p.1, some texName) else p }

/-- `glCheckFramebufferStatus(GL_FRAMEBUFFER) == GL_FRAMEBUFFER_COMPLETE`:
the bound framebuffer exists and has a color-0 attachment. -/
def framebufferComplete (s : GLState) : Bool :=
  s.framebuffers.any fun p => p.1 = s.drawFramebufferBinding && p.2.isSome

/-! ## Scoped GPU state guards (`DEFINE_SCOPED_BINDING`, lines 20-40)

The C++ guard saves the current binding at construction, installs the new
value, and restores the saved value in its destructor — on every exit path.
A guard's whole scope is embedded as a bracket around the body it encloses;
the body returns its state plus a result (for callbacks that may raise, the
result is the "raised?" flag, and the restore still happens, as a C++
destructor would run during unwinding). -/

def scopedBinding {α : Type} (get : GLState → Nat) (set : Nat → GLState → GLState)
    (new_value : Nat) (body : GLState → GLState × α) (s : GLState) : GLState × α :=
  let saved_value := get s
  let r := body (set new_value s)
  (set saved_value r.1, r.2)

/-- `DEFINE_SCOPED_BINDING(ScopedTextureBinding, GL_TEXTURE_BINDING_2D,
glBindTexture, GL_TEXTURE_2D)` (line 38). -/
def ScopedTextureBinding {α : Type} (new_value : Nat) (body : GLState → GLState × α)
    (s : GLState) : GLState × α :=
  scopedBinding (fun st => st.textureBinding2D)
    (fun v st => { st with textureBinding2D := v }) new_value body s

/-- `DEFINE_SCOPED_BINDING(ScopedFrameBufferBinding, GL_DRAW_FRAMEBUFFER_BINDING,
glBindFramebuffer, GL_DRAW_FRAMEBUFFER)` (lines 39-40). -/
def ScopedFrameBufferBinding {α : Type} (new_value : Nat) (body : GLState → GLState × α)
    (s : GLState) : GLState × α :=
  scopedBinding (fun st => st.drawFramebufferBinding)
    (fun v st => { st with drawFramebufferBinding := v }) new_value body s

/-! ## SceneTexture (lines 42-102) -/

structure SceneTexture where
  texture : Nat
  width : Int
  height : Int
  fbo : Nat
  deriving DecidableEq

/-- The `SceneTexture(int width, int height)` constructor (lines 49-87).
`texName`/`fboName` are the fresh object names handed out by
`glGenTextures`/`glGenFramebuffers`.  The calls appear in source order:
gen both objects; scoped-bind the texture; save the four unpack parameters;
set alignment to 1; set filters and wrap modes; set row length / skips;
allocate storage; scoped-bind the framebuffer; attach the texture at
color 0 (the completeness assertion reads, but does not change, the state);
restore the four unpack parameters explicitly; then both guards unwind in
reverse order. -/
def SceneTexture.create (texName fboName : Nat) (width height : Int)
    (s : GLState) : SceneTexture × GLState :=
  let s := { s with framebuffers := (fboName, none) :: s.framebuffers }
  let s := { s with textures := (texName, TexObject.fresh) :: s.textures }
  let r := ScopedTextureBinding texName (fun s =>
    let old_unpack_alignment := s.unpackAlignment
    let old_unpack_row_length := s.unpackRowLength
    let old_unpack_skip_pixels := s.unpackSkipPixels
    let old_unpack_skip_rows := s.unpackSkipRows
    let s := { s with unpackAlignment := 1 }
    let s := s.onBoundTexture fun t => { t with minFilter := GL_LINEAR }
    let s := s.onBoundTexture fun t => { t with magFilter := GL_LINEAR }
    let s := s.onBoundTexture fun t => { t with wrapS := GL_CLAMP_TO_EDGE }
    let s := s.onBoundTexture fun t => { t with wrapT := GL_CLAMP_TO_EDGE }
    let s := { s with unpackRowLength := width }
    let s := { s with unpackSkipPixels := 0 }
    let s := { s with unpackSkipRows := 0 }
    let s := texImage2D width height s
    ScopedFrameBufferBinding fboName (fun s =>
      let s := framebufferTexture2D texName s
      let s := { s with unpackAlignment := old_unpack_alignment }
      let s := { s with unpackRowLength := old_unpack_row_length }
      let s := { s with unpackSkipPixels := old_unpack_skip_pixels }
      let s := { s with unpackSkipRows := old_unpack_skip_rows }
      (s, ())) s) s
  (⟨texName, width, height, fboName⟩, r.1)

/-- `SceneTexture::with_active_fbo` (lines 96-101): scoped-bind this
surface's framebuffer, run the callback, restore on return.  The callback's
`Bool` result is `true` when it exits via a raised error; the guard's
destructor restores the binding on that path too. -/
def SceneTexture.with_active_fbo (t : SceneTexture)
    (callback : GLState → GLState × Bool) (s : GLState) : GLState × Bool :=
  ScopedFrameBufferBinding t.fbo callback s

/-! ## Change-detection state cache (`DemoRenderer::State`, lines 270-287) -/

/-- `DemoRenderer::State`: the tracked snapshot.  Defaults are the sentinel
values `-1` on every field (lines 271-275). -/
structure CacheState where
  red : ℚ
  green : ℚ
  blue : ℚ
  width : Int
  height : Int
  deriving DecidableEq

/-- The default-constructed snapshot (all sentinels). -/
def CacheState.init : CacheState :=
  { red := -1, green := -1, blue := -1, width := -1, height := -1 }

/-- The host component's getter surface consumed by the bridge:
`get_selected_red/green/blue` and `get_requested_texture_width/height`. -/
structure AppInputs where
  selected_red : ℚ
  selected_green : ℚ
  selected_blue : ℚ
  requested_texture_width : Int
  requested_texture_height : Int
  deriving DecidableEq

/-- The `new_state` aggregate built inside `needsUpdate` (lines 240-246). -/
def snapshotOf (app : AppInputs) : CacheState :=
  { red := app.selected_red
    green := app.selected_green
    blue := app.selected_blue
    width := app.requested_texture_width
    height := app.requested_texture_height }

/-- `DemoRenderer::needsUpdate` (lines 238-252): build the new snapshot
from the host getters; if it differs from the stored one, store it and
return `true`; otherwise return `false` and leave the store untouched.
Returns (result, new stored snapshot). -/
def needsUpdate (app : AppInputs) (state : CacheState) : Bool × CacheState :=
  let new_state := snapshotOf app
  if state ≠ new_state then (true, new_state) else (false, state)

/-! ## Scene content (`DemoRenderer::buildScene`, lines 254-267) -/

/-- The widgets `buildScene` declares, with the values it passes them. -/
inductive SceneItem where
  | text (label : String)
  | sliderFloat (label : String) (value lo hi : ℚ)
  | colorEdit3 (label : String) (red green blue : ℚ)
  deriving DecidableEq

/-- `DemoRenderer::buildScene` (lines 254-267): declares a text label,
three sliders and a color editor, all sourced from the cached snapshot
`state_` — the `app` handle is received but never read
(`[[maybe_unused]]`). -/
def buildScene (state : CacheState) (app : AppInputs) : List SceneItem :=
  [ SceneItem.text "Rendered into texture",
    SceneItem.sliderFloat "Red" state.red 0 1,
    SceneItem.sliderFloat "Green" state.green 0 1,
    SceneItem.sliderFloat "Blue" state.blue 0 1,
    SceneItem.colorEdit3 "Color" state.red state.green state.blue ]

/-! ## Render bridge lifecycle controller (`ImGuiRendererBase`, lines 104-230)

The controller is embedded as a record plus an event trace of its
observable actions.  Surfaces are `SceneTexture` values whose `texture`
name doubles as the instance identity: the model allocates names from a
counter (`freshId`), mirroring the driver handing out fresh names, so two
distinct `std::make_unique<SceneTexture>` calls never share a name.  GPU
drawing inside `with_active_fbo` (clear, ImGui render, draw-data flush) is
abstracted as a single `gpuDraw` event on the target surface — claims about
GPU work count these events. -/

/-- A surface as allocated by the controller: texture name = fbo name =
instance id `i`. -/
def mkSurface (i : Nat) (width height : Int) : SceneTexture :=
  ⟨i, width, height, i⟩

/-- `slint::RenderingState` (the four notification kinds). -/
inductive RenderingState where
  | RenderingSetup
  | BeforeRendering
  | AfterRendering
  | RenderingTeardown
  deriving DecidableEq

/-- Observable actions of the controller. -/
inductive Event where
  | createContext
  | destroyContext
  | createSurface (i : Nat) (width height : Int)
  | destroySurface (i : Nat)
  | gpuDraw (target : Nat) (width height : Int)
  | publish (texture : Nat) (width height : Int)
  | requestRedraw
  deriving DecidableEq

/-- The controller's state: `ctx_` (ImGui context), `displayed_texture_`,
`next_texture_` (both null before setup and after teardown), the derived
class's cache `state_`, and the model's fresh-name counter. -/
structure Controller where
  ctx : Option Nat
  displayed : Option SceneTexture
  next : Option SceneTexture
  cache : CacheState
  freshId : Nat
  deriving DecidableEq

/-- A just-constructed `DemoRenderer`: null context and surfaces,
default-initialized cache. -/
def initController : Controller :=
  { ctx := none, displayed := none, next := none
    cache := CacheState.init, freshId := 0 }

/-- `ImGuiRendererBase::setup` (lines 139-153): create the ImGui context
and both surfaces at the fixed default size 320×200. -/
def Controller.setup (c : Controller) : Controller × List Event :=
  let ctxId := c.freshId
  let d := mkSurface (c.freshId + 1) 320 200
  let n := mkSurface (c.freshId + 2) 320 200
  ({ c with ctx := some ctxId, displayed := some d, next := some n
            freshId := c.freshId + 3 },
   [Event.createContext,
    Event.createSurface d.texture 320 200,
    Event.createSurface n.texture 320 200])

/-- The surface `render` draws into: the current "next" surface, unless its
dimensions differ from the requested ones, in which case a freshly created
replacement of the requested size (lines 170-176). -/
def drawTarget (c : Controller) (app : AppInputs) (nx : SceneTexture) : SceneTexture :=
  if nx.width ≠ app.requested_texture_width ∨ nx.height ≠ app.requested_texture_height
  then mkSurface c.freshId app.requested_texture_width app.requested_texture_height
  else nx

/-- `ImGuiRendererBase::render` (lines 168-213): read the requested size
from the host; if the "next" surface's dimensions differ, create a
replacement of the requested size and destroy the old one; draw into the
(possibly replaced) "next" surface under `with_active_fbo`; wrap its
texture as a borrowed image; swap "next" and "displayed".  Returns the new
state, the event trace, and the published image (texture, width, height).
Dereferencing a null `next_texture_` would be undefined behaviour in the
source; the host's notification contract makes that unreachable, and the
model returns the state unchanged there. -/
def Controller.render (c : Controller) (app : AppInputs) :
    Controller × List Event × Option (Nat × Int × Int) :=
  match c.next with
  | none => (c, [], none)
  | some nx =>
    let w := app.requested_texture_width
    let h := app.requested_texture_height
    if nx.width ≠ w ∨ nx.height ≠ h then
      let target := mkSurface c.freshId w h
      ({ c with displayed := some target, next := c.displayed
                freshId := c.freshId + 1 },
       [Event.createSurface target.texture w h,
        Event.destroySurface nx.texture,
        Event.gpuDraw target.texture w h],
       some (target.texture, w, h))
    else
      ({ c with displayed := some nx, next := c.displayed },
       [Event.gpuDraw nx.texture nx.width nx.height],
       some (nx.texture, nx.width, nx.height))

/-- `ImGuiRendererBase::setTexture` (lines 155-159): render, then publish
the resulting image to the host via `set_texture`. -/
def Controller.setTexture (c : Controller) (app : AppInputs) :
    Controller × List Event :=
  let r := c.render app
  match r.2.2 with
  | some img => (r.1, r.2.1 ++ [Event.publish img.1 img.2.1 img.2.2])
  | none => (r.1, r.2.1)

/-- `ImGuiRendererBase::updateTexture` (lines 161-166): consult
`needsUpdate` (which may overwrite the cache) and render+publish only when
it returns `true`. -/
def Controller.updateTexture (c : Controller) (app : AppInputs) :
    Controller × List Event :=
  let r := needsUpdate app c.cache
  let c := { c with cache := r.2 }
  if r.1 then c.setTexture app else (c, [])

/-- `ImGuiRendererBase::teardown` (lines 215-222): destroy the ImGui
context and release both surfaces. -/
def Controller.teardown (c : Controller) : Controller × List Event :=
  ({ c with ctx := none, displayed := none, next := none },
   [Event.destroyContext]
   ++ (match c.displayed with
       | some d => [Event.destroySurface d.texture]
       | none => [])
   ++ (match c.next with
       | some n => [Event.destroySurface n.texture]
       | none => []))

/-- `ImGuiRendererBase::operator()` (lines 111-132): dispatch on the
notification kind.  Setup and BeforeRendering first try to lock the weak
host handle (`hostAlive` models whether `app_weak.lock()` succeeds) and do
nothing when it is expired; AfterRendering does nothing; Teardown runs
unconditionally, without consulting the host handle. -/
def Controller.notify (c : Controller) (hostAlive : Bool) (app : AppInputs)
    (state : RenderingState) : Controller × List Event :=
  match state with
  | RenderingState.RenderingSetup =>
    if hostAlive then
      let r1 := c.setup
      let r2 := r1.1.setTexture app
      (r2.1, r1.2 ++ r2.2 ++ [Event.requestRedraw])
    else (c, [])
  | RenderingState.BeforeRendering =>
    if hostAlive then c.updateTexture app else (c, [])
  | RenderingState.AfterRendering => (c, [])
  | RenderingState.RenderingTeardown => c.teardown

/-- Controller states reachable from construction by any sequence of
notifications, with any host liveness and any host getter values. -/
inductive Reachable : Controller → Prop where
  | init : Reachable initController
  | step {c : Controller} (hostAlive : Bool) (app : AppInputs)
      (state : RenderingState) :
      Reachable c → Reachable (c.notify hostAlive app state).1

/-! ## Event counting helpers -/

def isDraw : Event → Bool
  | Event.gpuDraw _ _ _ => true
  | _ => false

def isPublish : Event → Bool
  | Event.publish _ _ _ => true
  | _ => false

def isRedraw : Event → Bool
  | Event.requestRedraw => true
  | _ => false

def isCreate : Event → Bool
  | Event.createSurface _ _ _ => true
  | _ => false

def isDestroy : Event → Bool
  | Event.destroySurface _ => true
  | _ => false

/-- Number of events in a trace matching `p`. -/
def countEvents (p : Event → Bool) (evs : List Event) : Nat :=
  (evs.filter p).length

/-! ## Sample concrete states (used by scenario claims and witnesses) -/

/-- A host whose three channels are 0 and whose requested size is the
default 320×200. -/
def appZero : AppInputs :=
  { selected_red := 0, selected_green := 0, selected_blue := 0
    requested_texture_width := 320, requested_texture_height := 200 }

/-- The controller right after a Setup notification with a live host. -/
def sampleActive : Controller :=
  (initController.notify true appZero RenderingState.RenderingSetup).1

/-- `sampleActive` after one BeforeRendering notification: its cache now
equals the host snapshot. -/
def sampleSteady : Controller :=
  (sampleActive.notify true appZero RenderingState.BeforeRendering).1

/-- A host requesting 640×200 (the C7 scenario). -/
def app640 : AppInputs :=
  { selected_red := 0, selected_green := 0, selected_blue := 0
    requested_texture_width := 640, requested_texture_height := 200 }

/-- The controller's structural invariant, strengthened with freshness of
the name counter so that it is inductive: either uninitialized (no context,
no surfaces) or active (context present, two distinct surfaces whose names
are below the counter). -/
def Inv (c : Controller) : Prop :=
  (c.ctx = none ∧ c.displayed = none ∧ c.next = none) ∨
  (c.ctx.isSome = true ∧ ∃ d n, c.displayed = some d ∧ c.next = some n ∧
    d.texture ≠ n.texture ∧ d.texture < c.freshId ∧ n.texture < c.freshId)

/-! ## Helper lemmas (shared; not claim theorems) -/

theorem setTexture_fst (c : Controller) (app : AppInputs) :
    (c.setTexture app).1 = (c.render app).1 := by
  unfold Controller.setTexture
  cases h : (c.render app).2.2 <;> simp [h]

theorem inv_init : Inv initController :=
  Or.inl ⟨rfl, rfl, rfl⟩

theorem inv_setup (c : Controller) : Inv (c.setup).1 := by
  refine Or.inr ⟨rfl, mkSurface (c.freshId + 1) 320 200,
    mkSurface (c.freshId + 2) 320 200, rfl, rfl, ?_, ?_, ?_⟩
  · simp [mkSurface]
  · simp [mkSurface, Controller.setup]
  · simp [mkSurface, Controller.setup]

theorem inv_render (c : Controller) (app : AppInputs) (h : Inv c) :
    Inv (c.render app).1 := by
  rcases h with ⟨h1, h2, h3⟩ | ⟨hctx, d, n, hd, hn, hne, hdlt, hnlt⟩
  · simp only [Controller.render, h3]
    exact Or.inl ⟨h1, h2, h3⟩
  · simp only [Controller.render, hn]
    by_cases hsz : n.width ≠ app.requested_texture_width ∨
        n.height ≠ app.requested_texture_height
    · rw [if_pos hsz]
      refine Or.inr ⟨hctx, _, d, rfl, by simpa using hd, ?_, ?_, ?_⟩
      · simp [mkSurface]; omega
      · simp [mkSurface]
      · simp; omega
    · rw [if_neg hsz]
      exact Or.inr ⟨hctx, n, d, rfl, by simpa using hd,
        fun e => hne e.symm, hnlt, hdlt⟩

theorem inv_cache (c : Controller) (st : CacheState) (h : Inv c) :
    Inv { c with cache := st } :=
  h

theorem inv_teardown (c : Controller) : Inv (c.teardown).1 :=
  Or.inl ⟨rfl, rfl, rfl⟩

theorem inv_notify (c : Controller) (hostAlive : Bool) (app : AppInputs)
    (state : RenderingState) (h : Inv c) :
    Inv (c.notify hostAlive app state).1 := by
  cases state
  case RenderingSetup =>
    cases hostAlive
    · exact h
    · simp only [Controller.notify, if_pos trivial]
      rw [setTexture_fst]
      exact inv_render _ _ (inv_setup c)
  case BeforeRendering =>
    cases hostAlive
    · exact h
    · simp only [Controller.notify, if_pos trivial, Controller.updateTexture]
      by_cases hb : (needsUpdate app c.cache).1 = true
      · rw [if_pos hb, setTexture_fst]
        exact inv_render _ _ (inv_cache c _ h)
      · rw [if_neg hb]
        exact inv_cache c _ h
  case AfterRendering => exact h
  case RenderingTeardown => exact inv_teardown c

theorem inv_reachable (c : Controller) (h : Reachable c) : Inv c := by
  induction h with
  | init => exact inv_init
  | step hostAlive app state _ ih => exact inv_notify _ hostAlive app state ih

/-! ## Claim theorems -/

/-- C1: every `needsUpdate` call returns `true` iff the new field tuple
built from the host getters differs in value from the currently stored
snapshot; when it returns `true` the stored snapshot becomes exactly the
new tuple (all fields together), and when it returns `false` the stored
snapshot is left unchanged.  Quantifying over the stored snapshot covers
every position in any sequence of calls. -/
theorem needsUpdate_true_iff_changed (app : AppInputs) (st : CacheState) :
    ((needsUpdate app st).1 = true ↔ snapshotOf app ≠ st) ∧
    (needsUpdate app st).2 =
      (if (needsUpdate app st).1 = true then snapshotOf app else st) := by
  by_cases h : st = snapshotOf app <;>
    simp [needsUpdate, h] <;> simp [ne_comm] at h ⊢ <;> simp [h]

/-- C2: after `with_active_fbo` returns — whether the callback returned
normally or exited via a raised error (the callback's `Bool` result, with
the guard's destructor running on both paths) — the ambient draw-framebuffer
binding equals its value from immediately before the call, for every
surface, callback and prior GL state. -/
theorem with_active_fbo_restores_binding (t : SceneTexture)
    (callback : GLState → GLState × Bool) (s : GLState) :
    ((t.with_active_fbo callback s).1).drawFramebufferBinding =
      s.drawFramebufferBinding := rfl

/-- C8: the `SceneTexture` constructor, for any positive width and height,
has no observable net effect on the ambient GL state: the four pixel-unpack
parameters, the 2D texture binding and the draw-framebuffer binding all
equal their values from immediately before the call (the texture and
framebuffer tables do change — the constructor allocates and configures the
new objects). -/
theorem sceneTexture_create_preserves_ambient (texName fboName : Nat)
    (width height : Int) (s : GLState) (hw : 0 < width) (hh : 0 < height) :
    ((SceneTexture.create texName fboName width height s).2.textureBinding2D =
        s.textureBinding2D) ∧
    ((SceneTexture.create texName fboName width height s).2.drawFramebufferBinding =
        s.drawFramebufferBinding) ∧
    ((SceneTexture.create texName fboName width height s).2.unpackAlignment =
        s.unpackAlignment) ∧
    ((SceneTexture.create texName fboName width height s).2.unpackRowLength =
        s.unpackRowLength) ∧
    ((SceneTexture.create texName fboName width height s).2.unpackSkipPixels =
        s.unpackSkipPixels) ∧
    ((SceneTexture.create texName fboName width height s).2.unpackSkipRows =
        s.unpackSkipRows) :=
  ⟨rfl, rfl, rfl, rfl, rfl, rfl⟩

/-- Witness for C8 at texture name 7, framebuffer name 8, size 320×200 and
a concrete prior state. -/
theorem sceneTexture_create_preserves_ambient_witness :
    0 < (320 : Int) ∧ 0 < (200 : Int) ∧
    (((SceneTexture.create 7 8 320 200
          ⟨3, 4, 4, 0, 0, 0, [], []⟩).2.textureBinding2D =
        (⟨3, 4, 4, 0, 0, 0, [], []⟩ : GLState).textureBinding2D) ∧
      ((SceneTexture.create 7 8 320 200
          ⟨3, 4, 4, 0, 0, 0, [], []⟩).2.drawFramebufferBinding =
        (⟨3, 4, 4, 0, 0, 0, [], []⟩ : GLState).drawFramebufferBinding) ∧
      ((SceneTexture.create 7 8 320 200
          ⟨3, 4, 4, 0, 0, 0, [], []⟩).2.unpackAlignment =
        (⟨3, 4, 4, 0, 0, 0, [], []⟩ : GLState).unpackAlignment) ∧
      ((SceneTexture.create 7 8 320 200
          ⟨3, 4, 4, 0, 0, 0, [], []⟩).2.unpackRowLength =
        (⟨3, 4, 4, 0, 0, 0, [], []⟩ : GLState).unpackRowLength) ∧
      ((SceneTexture.create 7 8 320 200
          ⟨3, 4, 4, 0, 0, 0, [], []⟩).2.unpackSkipPixels =
        (⟨3, 4, 4, 0, 0, 0, [], []⟩ : GLState).unpackSkipPixels) ∧
      ((SceneTexture.create 7 8 320 200
          ⟨3, 4, 4, 0, 0, 0, [], []⟩).2.unpackSkipRows =
        (⟨3, 4, 4, 0, 0, 0, [], []⟩ : GLState).unpackSkipRows)) :=
  ⟨by decide, by decide,
    sceneTexture_create_preserves_ambient 7 8 320 200
      ⟨3, 4, 4, 0, 0, 0, [], []⟩ (by decide) (by decide)⟩

/-- C9: `buildScene` sources the control values it declares exclusively
from the cached snapshot: any two invocations with equal cached snapshots
declare identical scene content, regardless of the host component's current
getter values. -/
theorem buildScene_reads_only_cache (st1 st2 : CacheState)
    (app1 app2 : AppInputs) (h : st1 = st2) :
    buildScene st1 app1 = buildScene st2 app2 := by
  subst h; rfl

/-- Witness for C9: equal snapshots, two different hosts. -/
theorem buildScene_reads_only_cache_witness :
    CacheState.init = CacheState.init ∧
    buildScene CacheState.init appZero = buildScene CacheState.init app640 :=
  ⟨rfl, buildScene_reads_only_cache CacheState.init CacheState.init
    appZero app640 rfl⟩

/-- C4 counterexample: with the host reference expired, a Teardown
notification delivered to an active controller is not skipped — the
controller's state changes (both surfaces are released) and actions are
performed (context destruction, surface destruction), refuting the claim
that every notification kind is silently skipped when the weak reference no
longer resolves. -/
theorem teardown_runs_despite_expired_host :
    ¬ ((sampleActive.notify false appZero
          RenderingState.RenderingTeardown).1 = sampleActive ∧
       (sampleActive.notify false appZero
          RenderingState.RenderingTeardown).2 = []) := by
  decide

/-- C4 amended: Setup, BeforeFrame and AfterFrame notifications delivered
while the host reference no longer resolves produce no state change and no
actions (silently skipped, not an error); a Teardown notification, however,
is processed unconditionally — it runs the full teardown without consulting
the host reference. -/
theorem expired_host_skips_all_but_teardown (app : AppInputs) (c : Controller) :
    c.notify false app RenderingState.RenderingSetup = (c, []) ∧
    c.notify false app RenderingState.BeforeRendering = (c, []) ∧
    c.notify false app RenderingState.AfterRendering = (c, []) ∧
    c.notify false app RenderingState.RenderingTeardown = c.teardown :=
  ⟨rfl, rfl, rfl, rfl⟩

/-- C3: in every reachable controller state, "displayed" and "next" are
never the same surface instance — both null in the uninitialized state and
both non-null (and distinct) in the active state — and each render cycle
swaps the two roles exactly once: the just-rendered surface (`drawTarget`)
becomes "displayed" and the previously-displayed surface becomes "next". -/
theorem reachable_double_buffer_invariant (c : Controller) (hc : Reachable c) :
    ((c.ctx = none ∧ c.displayed = none ∧ c.next = none) ∨
     (c.ctx.isSome = true ∧ ∃ d n, c.displayed = some d ∧ c.next = some n ∧
       d ≠ n ∧ d.texture ≠ n.texture)) ∧
    (∀ app nx, c.next = some nx →
      (c.render app).1.next = c.displayed ∧
      (c.render app).1.displayed = some (drawTarget c app nx)) := by
  constructor
  · rcases inv_reachable c hc with hL | ⟨hctx, d, n, hd, hn, hne, _, _⟩
    · exact Or.inl hL
    · exact Or.inr ⟨hctx, d, n, hd, hn, fun e => hne (by rw [e]), hne⟩
  · intro app nx hn
    by_cases hsz : nx.width ≠ app.requested_texture_width ∨
        nx.height ≠ app.requested_texture_height
    · simp only [Controller.render, hn, if_pos hsz, drawTarget]
      exact ⟨by trivial, by trivial⟩
    · simp only [Controller.render, hn, if_neg hsz, drawTarget]
      exact ⟨by trivial, by trivial⟩

/-- Witness for C3 at the controller reached by one Setup notification. -/
theorem reachable_double_buffer_invariant_witness :
    (((sampleActive.ctx = none ∧ sampleActive.displayed = none ∧
        sampleActive.next = none) ∨
      (sampleActive.ctx.isSome = true ∧ ∃ d n, sampleActive.displayed = some d ∧
        sampleActive.next = some n ∧ d ≠ n ∧ d.texture ≠ n.texture))) ∧
    ((sampleActive.render appZero).1.next = sampleActive.displayed ∧
     (sampleActive.render appZero).1.displayed =
       some (drawTarget sampleActive appZero (mkSurface 1 320 200))) :=
  ⟨(reachable_double_buffer_invariant sampleActive
      (Reachable.step true appZero RenderingState.RenderingSetup
        Reachable.init)).1,
   (reachable_double_buffer_invariant sampleActive
      (Reachable.step true appZero RenderingState.RenderingSetup
        Reachable.init)).2 appZero (mkSurface 1 320 200) rfl⟩

/-- C5: a Setup notification with a resolvable host and requested size
320×200 makes the controller active (context present), creates both
surfaces at the default 320×200, performs exactly one render (the trace
holds exactly one draw), publishes exactly one image, issues exactly one
redraw request, and never consults the change-detection predicate (the
cache still holds its initial sentinels) — for any host color values. -/
theorem setup_scenario (r g b : ℚ) :
    (initController.notify true ⟨r, g, b, 320, 200⟩
        RenderingState.RenderingSetup).2 =
      [Event.createContext, Event.createSurface 1 320 200,
       Event.createSurface 2 320 200, Event.gpuDraw 2 320 200,
       Event.publish 2 320 200, Event.requestRedraw] ∧
    countEvents isDraw (initController.notify true ⟨r, g, b, 320, 200⟩
        RenderingState.RenderingSetup).2 = 1 ∧
    countEvents isPublish (initController.notify true ⟨r, g, b, 320, 200⟩
        RenderingState.RenderingSetup).2 = 1 ∧
    countEvents isRedraw (initController.notify true ⟨r, g, b, 320, 200⟩
        RenderingState.RenderingSetup).2 = 1 ∧
    (initController.notify true ⟨r, g, b, 320, 200⟩
        RenderingState.RenderingSetup).1.ctx = some 0 ∧
    (initController.notify true ⟨r, g, b, 320, 200⟩
        RenderingState.RenderingSetup).1.displayed =
      some (mkSurface 2 320 200) ∧
    (initController.notify true ⟨r, g, b, 320, 200⟩
        RenderingState.RenderingSetup).1.next = some (mkSurface 1 320 200) ∧
    (initController.notify true ⟨r, g, b, 320, 200⟩
        RenderingState.RenderingSetup).1.cache = CacheState.init :=
  ⟨rfl, rfl, rfl, rfl, rfl, rfl, rfl, rfl⟩

/-- C6: a BeforeFrame notification whose tracked host inputs equal the
stored snapshot performs no GPU work and publishes nothing: the event trace
is empty and the entire controller state is unchanged. -/
theorem before_frame_no_change_no_work (c : Controller) (app : AppInputs)
    (h : c.cache = snapshotOf app) :
    c.notify true app RenderingState.BeforeRendering = (c, []) := by
  have hup : needsUpdate app c.cache = (false, c.cache) := by
    rw [h]; simp [needsUpdate]
  simp [Controller.notify, Controller.updateTexture, hup]

/-- Witness for C6 at the steady controller whose cache matches the host. -/
theorem before_frame_no_change_no_work_witness :
    sampleSteady.cache = snapshotOf appZero ∧
    sampleSteady.notify true appZero RenderingState.BeforeRendering =
      (sampleSteady, []) :=
  ⟨by decide, before_frame_no_change_no_work sampleSteady appZero (by decide)⟩

/-- C7: during render, the "next" surface is destroyed and replaced by a
newly created surface sized exactly to the requested width and height iff
its current dimensions differ from the requested ones (equal dimensions
yield a trace with no creation and no destruction), and the surface drawn
into always has exactly the requested dimensions. -/
theorem render_realloc_iff (c : Controller) (app : AppInputs)
    (nx : SceneTexture) (hn : c.next = some nx) :
    ((nx.width ≠ app.requested_texture_width ∨
      nx.height ≠ app.requested_texture_height) →
        (c.render app).2.1 =
          [Event.createSurface c.freshId app.requested_texture_width
             app.requested_texture_height,
           Event.destroySurface nx.texture,
           Event.gpuDraw c.freshId app.requested_texture_width
             app.requested_texture_height] ∧
        (c.render app).1.displayed =
          some (mkSurface c.freshId app.requested_texture_width
            app.requested_texture_height)) ∧
    ((nx.width = app.requested_texture_width ∧
      nx.height = app.requested_texture_height) →
        (c.render app).2.1 =
          [Event.gpuDraw nx.texture nx.width nx.height] ∧
        (c.render app).1.displayed = some nx) ∧
    (drawTarget c app nx).width = app.requested_texture_width ∧
    (drawTarget c app nx).height = app.requested_texture_height ∧
    Event.gpuDraw (drawTarget c app nx).texture (drawTarget c app nx).width
        (drawTarget c app nx).height ∈ (c.render app).2.1 := by
  by_cases hsz : nx.width ≠ app.requested_texture_width ∨
      nx.height ≠ app.requested_texture_height
  · simp only [Controller.render, hn, if_pos hsz, drawTarget, mkSurface]
    refine ⟨fun _ => ⟨by trivial, by trivial⟩, fun he => ?_, by trivial,
      by trivial, ?_⟩
    · rcases hsz with hsz | hsz
      · exact absurd he.1 hsz
      · exact absurd he.2 hsz
    · simp
  · push_neg at hsz
    simp only [Controller.render, hn, if_neg (by push_neg; exact hsz :
        ¬ (nx.width ≠ app.requested_texture_width ∨
           nx.height ≠ app.requested_texture_height)), drawTarget]
    refine ⟨fun hcontra => ?_, fun _ => ⟨by trivial, by trivial⟩, hsz.1,
      hsz.2, ?_⟩
    · rcases hcontra with hc' | hc'
      · exact absurd hsz.1 hc'
      · exact absurd hsz.2 hc'
    · simp

/-- Witness for C7: the scenario where the requested width changes from
320 to 640 with height 200 — the 320×200 "next" surface is destroyed and a
640×200 replacement is created and drawn into. -/
theorem render_realloc_iff_witness :
    sampleSteady.next = some (mkSurface 2 320 200) ∧
    ((((mkSurface 2 320 200).width ≠ app640.requested_texture_width ∨
       (mkSurface 2 320 200).height ≠ app640.requested_texture_height) →
         (sampleSteady.render app640).2.1 =
           [Event.createSurface sampleSteady.freshId
              app640.requested_texture_width app640.requested_texture_height,
            Event.destroySurface (mkSurface 2 320 200).texture,
            Event.gpuDraw sampleSteady.freshId app640.requested_texture_width
              app640.requested_texture_height] ∧
         (sampleSteady.render app640).1.displayed =
           some (mkSurface sampleSteady.freshId
             app640.requested_texture_width app640.requested_texture_height)) ∧
     (((mkSurface 2 320 200).width = app640.requested_texture_width ∧
       (mkSurface 2 320 200).height = app640.requested_texture_height) →
         (sampleSteady.render app640).2.1 =
           [Event.gpuDraw (mkSurface 2 320 200).texture
             (mkSurface 2 320 200).width (mkSurface 2 320 200).height] ∧
         (sampleSteady.render app640).1.displayed =
           some (mkSurface 2 320 200)) ∧
     (drawTarget sampleSteady app640 (mkSurface 2 320 200)).width =
       app640.requested_texture_width ∧
     (drawTarget sampleSteady app640 (mkSurface 2 320 200)).height =
       app640.requested_texture_height ∧
     Event.gpuDraw (drawTarget sampleSteady app640 (mkSurface 2 320 200)).texture
       (drawTarget sampleSteady app640 (mkSurface 2 320 200)).width
       (drawTarget sampleSteady app640 (mkSurface 2 320 200)).height ∈
       (sampleSteady.render app640).2.1) :=
  ⟨by decide, render_realloc_iff sampleSteady app640 (mkSurface 2 320 200)
    (by decide)⟩

/-- C10: after a Setup notification the change-detection snapshot still
holds its sentinel values (the initial render bypasses `needsUpdate`), so
the first BeforeFrame notification afterwards always performs a render and
a publication whenever the host's tracked values are all non-negative —
even when they are unchanged since Setup. -/
theorem first_before_frame_always_renders (r g b : ℚ) (app2 : AppInputs)
    (h1 : 0 ≤ app2.selected_red) (h2 : 0 ≤ app2.selected_green)
    (h3 : 0 ≤ app2.selected_blue) (h4 : 0 ≤ app2.requested_texture_width)
    (h5 : 0 ≤ app2.requested_texture_height) :
    (initController.notify true ⟨r, g, b, 320, 200⟩
        RenderingState.RenderingSetup).1.cache = CacheState.init ∧
    countEvents isDraw ((initController.notify true ⟨r, g, b, 320, 200⟩
        RenderingState.RenderingSetup).1.notify true app2
        RenderingState.BeforeRendering).2 = 1 ∧
    countEvents isPublish ((initController.notify true ⟨r, g, b, 320, 200⟩
        RenderingState.RenderingSetup).1.notify true app2
        RenderingState.BeforeRendering).2 = 1 := by
  have hc1 : (initController.notify true ⟨r, g, b, 320, 200⟩
      RenderingState.RenderingSetup).1 =
      ⟨some 0, some (mkSurface 2 320 200), some (mkSurface 1 320 200),
        CacheState.init, 3⟩ := rfl
  have hne : CacheState.init ≠ snapshotOf app2 := by
    intro he
    have hred := congrArg CacheState.red he
    simp only [CacheState.init, snapshotOf] at hred
    rw [← hred] at h1
    norm_num at h1
  have hup : needsUpdate app2 CacheState.init = (true, snapshotOf app2) := by
    simp [needsUpdate, hne]
  refine ⟨rfl, ?_, ?_⟩ <;>
  · rw [hc1]
    simp only [Controller.notify, if_pos trivial, Controller.updateTexture, hup]
    by_cases hsz : (mkSurface 1 320 200).width ≠ app2.requested_texture_width ∨
        (mkSurface 1 320 200).height ≠ app2.requested_texture_height
    · simp [Controller.setTexture, Controller.render, if_pos hsz,
        countEvents, isDraw, isPublish]
    · simp [Controller.setTexture, Controller.render, if_neg hsz,
        countEvents, isDraw, isPublish]

/-- Witness for C10 with zero color channels and the default 320×200
request — inputs identical to those at Setup. -/
theorem first_before_frame_always_renders_witness :
    (0 : ℚ) ≤ appZero.selected_red ∧ (0 : ℚ) ≤ appZero.selected_green ∧
    (0 : ℚ) ≤ appZero.selected_blue ∧
    (0 : Int) ≤ appZero.requested_texture_width ∧
    (0 : Int) ≤ appZero.requested_texture_height ∧
    ((initController.notify true ⟨0, 0, 0, 320, 200⟩
        RenderingState.RenderingSetup).1.cache = CacheState.init ∧
     countEvents isDraw ((initController.notify true ⟨0, 0, 0, 320, 200⟩
        RenderingState.RenderingSetup).1.notify true appZero
        RenderingState.BeforeRendering).2 = 1 ∧
     countEvents isPublish ((initController.notify true ⟨0, 0, 0, 320, 200⟩
        RenderingState.RenderingSetup).1.notify true appZero
        RenderingState.BeforeRendering).2 = 1) :=
  ⟨by decide, by decide, by decide, by decide, by decide,
   first_before_frame_always_renders 0 0 0 appZero (by decide) (by decide)
     (by decide) (by decide) (by decide)⟩

end SlintImGui
